import Mathlib

/-!
Shallow embedding of the ajour self-update core (crates/core/src/network.rs,
crates/core/src/utility.rs, src/main.rs).

Filesystem effects are made explicit: a filesystem is an association list
from path strings to file metadata (content bytes and a permission mode).
HTTP responses, response bodies and read streams are explicit values the
environment supplies; the functions below mirror the control flow of the
Rust source over those values.
-/

/-- Byte sequences; file contents and response bodies. -/
abbrev Bytes := List Nat

/-- A file's state on disk: its bytes and its permission mode. -/
structure FileMeta where
  bytes : Bytes
  mode : Nat
deriving Repr, DecidableEq

/-- A filesystem: association list from paths to files. -/
abbrev FS := List (String × FileMeta)

def FS.lookup : FS → String → Option FileMeta
  | [], _ => none
  | (q, m) :: rest, p => if q = p then some m else FS.lookup rest p

def FS.erase : FS → String → FS
  | [], _ => []
  | (q, m) :: rest, p =>
    if q = p then FS.erase rest p else (q, m) :: FS.erase rest p

/-- Create or overwrite the file at `p`. -/
def FS.insert (fs : FS) (p : String) (m : FileMeta) : FS :=
  (p, m) :: FS.erase fs p

/-- Set the permission mode of the file at `p` (no-op when absent);
models `fs::set_permissions` after `permissions.set_mode(..)`. -/
def FS.setMode (fs : FS) (p : String) (mode : Nat) : FS :=
  match FS.lookup fs p with
  | none => fs
  | some m => FS.insert fs p ⟨m.bytes, mode⟩

/-- The mode a freshly created regular file gets in this model. -/
def defaultFileMode : Nat := 0o644

/-- `ClientError` from crates/core/src/error.rs as used by these call sites:
network failures, filesystem failures, and `ClientError::Custom(msg)`. -/
inductive ClientError
  | network
  | fs
  | custom (msg : String)
deriving Repr, DecidableEq

/-! ## Transport (network.rs, `request_async`) -/

/-- One URL character as sent on the wire: `str::replace(" ", "%20")` with a
single-character pattern substitutes every space, character by character. -/
def encodeSpaces : List Char → List Char
  | [] => []
  | c :: rest => (if c = ' ' then ['%', '2', '0'] else [c]) ++ encodeSpaces rest

/-- The request `request_async` hands to the HTTP client. -/
structure RequestModel where
  uri : String
  headers : List (String × String)
  timeoutSecs : Option Nat
deriving Repr, DecidableEq

/-- network.rs lines 14-34: `request_async` percent-encodes spaces in the URL
(`url.to_string().replace(" ", "%20")`), attaches the given headers, and sets
the timeout when one is supplied. The model returns the request it builds;
sending it is the environment's part. -/
def request_async (url : String) (headers : List (String × String))
    (timeout : Option Nat) : RequestModel :=
  { uri := ⟨encodeSpaces url.data⟩, headers := headers, timeoutSecs := timeout }

/-! ## Whole-body download (network.rs, `download_file`) -/

/-- Model of an `isahc` response body: `Body::len()` (the length the transport
reports, `none` when unknown, e.g. chunked transfer encoding) and the bytes
the stream actually yields. The two are independent: `len()` is metadata read
before any byte is streamed. -/
structure BodyModel where
  reportedLen : Option Nat
  bytes : Bytes
deriving Repr, DecidableEq

/-- A response as `download_file` sees it: the `Content-Length` header value
if present (`none` when absent), and the body. -/
structure HttpResponse where
  contentLength : Option String
  body : BodyModel
deriving Repr, DecidableEq

/-- Decimal digit value of a character, `none` for non-digits. -/
def charDigit? (c : Char) : Option Nat :=
  if '0' ≤ c ∧ c ≤ '9' then some (c.toNat - '0'.toNat) else none

/-- Accumulate the decimal value of a digit string, `none` on a non-digit. -/
def digitsVal : List Char → Nat → Option Nat
  | [], acc => some acc
  | c :: rest, acc =>
    match charDigit? c with
    | none => none
    | some d => digitsVal rest (acc * 10 + d)

/-- Rust `str::parse::<u64>()`: a nonempty digit string whose value fits in
64 bits; anything else errors. -/
def parseU64 (s : String) : Option Nat :=
  match s.data with
  | [] => none
  | cs =>
    match digitsVal cs 0 with
    | none => none
    | some n => if n < 2 ^ 64 then some n else none

/-- network.rs lines 130-136: the `Content-Length` header mapped to a string
(`""` when absent or non-ASCII), parsed as `u64`, `unwrap_or_default()` at
each step — so absent or unparseable yields `0`. -/
def contentLengthValue (h : Option String) : Nat :=
  (parseU64 (h.getD "")).getD 0

/-- network.rs lines 109-154, `download_file`. The request outcome `resp`,
whether `File::create` succeeds (`createOk`), and whether the stream `copy`
completes (`copyFail = none`) or dies after writing `k` bytes
(`copyFail = some k`) are supplied by the environment. Returns the function's
result together with the filesystem after the call. The length check
(lines 129-145) runs before the file is created (line 147); a mismatch
returns `ClientError::Custom` with the file untouched. -/
def download_file (resp : Except ClientError HttpResponse) (createOk : Bool)
    (copyFail : Option Nat) (fs : FS) (dest_file : String) :
    Except ClientError Unit × FS :=
  match resp with
  | .error e => (.error e, fs)
  | .ok r =>
    let content_length := contentLengthValue r.contentLength
    let body_length := r.body.reportedLen.getD 0
    if body_length ≠ content_length then
      (.error (.custom "Download failed, body len doesn't match content len"), fs)
    else if createOk then
      match copyFail with
      | none => (.ok (), FS.insert fs dest_file ⟨r.body.bytes, defaultFileMode⟩)
      | some k =>
          (.error .fs, FS.insert fs dest_file ⟨r.body.bytes.take k, defaultFileMode⟩)
    else (.error .fs, fs)

/-! ## Chunked download (network.rs, `download_addon`) -/

/-- One `body.read(&mut buffer)` outcome: `chunk d` is `Ok(d.length)` with
`d` the bytes read (`chunk []` is the zero-byte end-of-stream read), and
`ioError` is `Err(e)`. -/
inductive ReadEvent
  | chunk (data : Bytes)
  | ioError
deriving Repr, DecidableEq

/-- network.rs lines 87-102: the read loop. Stops on a zero-byte read or on a
read error (which is only printed); otherwise appends the chunk to the file
and continues. `write_all` (whose error path is an `expect` panic) is modeled
as succeeding. An empty event list also ends the loop. -/
def downloadLoop : List ReadEvent → Bytes → Bytes
  | [], acc => acc
  | .chunk [] :: _, acc => acc
  | .chunk d :: rest, acc => downloadLoop rest (acc ++ d)
  | .ioError :: _, acc => acc

/-- The part of `Addon` these functions touch: its id and the download URL of
`relevant_release_package()` when one exists. -/
structure Addon where
  id : String
  remoteUrl : Option String
deriving Repr, DecidableEq

/-- network.rs lines 64-106, `download_addon`: no-op `Ok(())` when the addon
has no relevant release package; otherwise request the package URL (failure
propagates), create `to_directory/<id>` and run the read loop, then return
`Ok(())` regardless of how the loop ended. Directory creation is modeled as
succeeding. -/
def download_addon (addon : Addon)
    (respEvents : Except ClientError (List ReadEvent))
    (fs : FS) (to_directory : String) : Except ClientError Unit × FS :=
  match addon.remoteUrl with
  | none => (.ok (), fs)
  | some _ =>
    match respEvents with
    | .error e => (.error e, fs)
    | .ok events =>
      let zip_path := to_directory ++ "/" ++ addon.id
      (.ok (), FS.insert fs zip_path ⟨downloadLoop events [], defaultFileMode⟩)

/-! ## Release locator (utility.rs) -/

/-- utility.rs lines 29-34: a release asset, `name` and
`browser_download_url`. -/
structure ReleaseAsset where
  name : String
  download_url : String
deriving Repr, DecidableEq

/-- utility.rs lines 23-27: a release, `tag_name` and its assets. -/
structure Release where
  tag_name : String
  assets : List ReleaseAsset
deriving Repr, DecidableEq

/-- JSON values, for the serde deserialization of `Release`. -/
inductive Json
  | null
  | bool (b : Bool)
  | num (n : Int)
  | str (s : String)
  | arr (items : List Json)
  | obj (fields : List (String × Json))

/-- First value bound to `key` in a JSON object's field list. -/
def getField : List (String × Json) → String → Option Json
  | [], _ => none
  | (k, v) :: rest, key => if k = key then some v else getField rest key

def asString : Json → Option String
  | .str s => some s
  | _ => none

/-- serde derive for `ReleaseAsset`: an object with string fields `name` and
`browser_download_url` (the serde rename of `download_url`); anything else
fails. Unknown extra fields are ignored (serde's default). -/
def decodeAsset (j : Json) : Option ReleaseAsset :=
  match j with
  | .obj fields => do
    let n ← (getField fields "name").bind asString
    let u ← (getField fields "browser_download_url").bind asString
    some ⟨n, u⟩
  | _ => none

def decodeAssets : List Json → Option (List ReleaseAsset)
  | [] => some []
  | j :: rest => do
    let a ← decodeAsset j
    let tl ← decodeAssets rest
    some (a :: tl)

/-- serde derive for `Release`: an object with a string `tag_name` and an
array `assets` whose every element decodes as a `ReleaseAsset`. -/
def decodeRelease (j : Json) : Option Release :=
  match j with
  | .obj fields => do
    let t ← (getField fields "tag_name").bind asString
    let items ← match getField fields "assets" with
      | some (.arr xs) => decodeAssets xs
      | _ => none
    some ⟨t, items⟩
  | _ => none

/-- utility.rs lines 36-51, `get_latest_release`. `clientBuild` is the
`HttpClient::new()` outcome, `resp` the GET to the fixed release endpoint:
`.error` is a network failure, `.ok none` a body that is not valid JSON,
`.ok (some j)` a JSON body. Every failure is turned into `None` by the
`.ok()?` chain; success is the serde decode of the body. -/
def get_latest_release (clientBuild : Option Unit)
    (resp : Except ClientError (Option Json)) : Option Release :=
  match clientBuild with
  | none => none
  | some _ =>
    match resp with
    | .error _ => none
    | .ok bodyJson => bodyJson.bind decodeRelease

/-- utility.rs lines 56-63: `release.assets.iter().find(|a| a.name == bin_name)`,
`ClientError::Custom("No new release binary available for ...")` when no
asset's name equals `bin_name`. -/
def selectAsset (release : Release) (bin_name : String) :
    Except ClientError ReleaseAsset :=
  match release.assets.find? (fun a => a.name == bin_name) with
  | some a => .ok a
  | none =>
    .error (.custom ("No new release binary available for " ++ bin_name))

/-- utility.rs lines 55-85, `download_update_to_temp_file`. `exe_dir` is the
parent directory of `std::env::current_exe()` (already resolved; `.parent()`
is `unwrap`ped in the source), `responses` maps each URL to the response its
GET produces, `createOk`/`copyFail` drive `download_file` as above, and
`isWindows` selects the `cfg` branch. Picks the asset named `bin_name`
(error when none), downloads it to `exe_dir/tmp_<bin_name>`, then on
non-Windows sets that file's mode to `0o755` (the file was just created, so
the metadata/set-permissions steps are modeled as succeeding). Returns the
temp path. -/
def download_update_to_temp_file (bin_name : String) (release : Release)
    (exe_dir : String) (responses : String → Except ClientError HttpResponse)
    (createOk : Bool) (copyFail : Option Nat) (isWindows : Bool) (fs : FS) :
    Except ClientError String × FS :=
  match selectAsset release bin_name with
  | .error e => (.error e, fs)
  | .ok asset =>
    let new_bin_path := exe_dir ++ "/tmp_" ++ bin_name
    match download_file (responses asset.download_url) createOk copyFail fs
        new_bin_path with
    | (.error e, fs1) => (.error e, fs1)
    | (.ok _, fs1) =>
      let fs2 := if isWindows then fs1 else FS.setMode fs1 new_bin_path 0o755
      (.ok new_bin_path, fs2)

/-! ## Self-update finalize (src/main.rs) -/

/-- Rust `str::strip_prefix`: `some` of the remainder when `pre` leads `s`. -/
def stripPfx (s pre : String) : Option String :=
  if pre.data.isPrefixOf s.data then some ⟨s.data.drop pre.data.length⟩
  else none

/-- `std::fs::rename`: fails when the source is missing or when the
environment makes it fail (`externalOk = false`: original locked,
cross-device rename); otherwise moves the file, overwriting `dest`. -/
def renameFile (fs : FS) (src dest : String) (externalOk : Bool) :
    Except ClientError FS :=
  if externalOk then
    match FS.lookup fs src with
    | none => .error .fs
    | some m => .ok (FS.insert (FS.erase fs src) dest m)
  else .error .fs

/-- Outcome of `handle_self_update_temp`: the `unwrap` on
`strip_prefix("tmp_")` can panic. -/
inductive HandleResult
  | panicked
  | errored (e : ClientError)
  | ok (fs : FS)
deriving Repr, DecidableEq

/-- main.rs lines 127-142, `handle_self_update_temp`. `parent_dir` and
`file_name` decompose `env::current_exe()` (resolved; `.parent()` and
`.to_str()` are `unwrap`ped in the source). Strips `"tmp_"` from the file
name — `unwrap`, so a name without the prefix panics — then renames
`parent_dir/<file_name>` to `parent_dir/<stripped>`; a rename error is
returned via `?`. -/
def handle_self_update_temp (parent_dir file_name : String)
    (renameOk : Bool) (fs : FS) : HandleResult :=
  match stripPfx file_name "tmp_" with
  | none => .panicked
  | some dest_name =>
    let src := parent_dir ++ "/" ++ file_name
    let dest := parent_dir ++ "/" ++ dest_name
    match renameFile fs src dest renameOk with
    | .error e => .errored e
    | .ok fs1 => .ok fs1

/-- What the process does around the self-update step. -/
inductive RunOutcome
  | panicked
  | exited (code : Nat)
  | continued (fs : FS)
deriving Repr, DecidableEq

/-- main.rs lines 46-51: when launched with the `self_update_temp` flag, run
`handle_self_update_temp`; on `Err` the error is logged (`log_error`) and the
process exits with status 1; otherwise startup continues. -/
def mainSelfUpdateStep (selfUpdateTemp : Bool) (parent_dir file_name : String)
    (renameOk : Bool) (fs : FS) : RunOutcome :=
  if selfUpdateTemp then
    match handle_self_update_temp parent_dir file_name renameOk fs with
    | .panicked => .panicked
    | .errored _ => .exited 1
    | .ok fs1 => .continued fs1
  else .continued fs

/-- The filesystem `handle_self_update_temp` produces on a successful rename
of `parent_dir/tmp_<app>` onto `parent_dir/<app>`. -/
def finalizeResult (parent_dir app : String) (meta : FileMeta) (fs : FS) : FS :=
  FS.insert (FS.erase fs (parent_dir ++ "/" ++ ("tmp_" ++ app)))
    (parent_dir ++ "/" ++ app) meta

/-- A concrete response environment: every URL answers with a 2-byte body
matching its `Content-Length`. -/
def demoResponses : String → Except ClientError HttpResponse :=
  fun _ => .ok ⟨some "2", ⟨some 2, [7, 8]⟩⟩

/-! ## Helper lemmas -/

theorem FS.lookup_insert_self (fs : FS) (p : String) (m : FileMeta) :
    FS.lookup (FS.insert fs p m) p = some m := by
  simp [FS.insert, FS.lookup]

theorem FS.lookup_erase_self (fs : FS) (p : String) :
    FS.lookup (FS.erase fs p) p = none := by
  induction fs with
  | nil => rfl
  | cons hd tl ih =>
    obtain ⟨r, m⟩ := hd
    by_cases hr : r = p
    · simpa [FS.erase, hr] using ih
    · simp [FS.erase, FS.lookup, hr, ih]

theorem FS.lookup_erase_of_ne (fs : FS) {p q : String} (h : q ≠ p) :
    FS.lookup (FS.erase fs p) q = FS.lookup fs q := by
  induction fs with
  | nil => rfl
  | cons hd tl ih =>
    obtain ⟨r, m⟩ := hd
    by_cases hr : r = p
    · subst hr
      have hrq : ¬ r = q := fun hh => h hh.symm
      simp [FS.erase, FS.lookup, hrq, ih]
    · simp [FS.erase, FS.lookup, hr, ih]

theorem FS.lookup_insert_of_ne (fs : FS) {p q : String} (m : FileMeta)
    (h : q ≠ p) :
    FS.lookup (FS.insert fs p m) q = FS.lookup fs q := by
  have hpq : ¬ p = q := fun hh => h (hh ▸ rfl)
  simp [FS.insert, FS.lookup, hpq, FS.lookup_erase_of_ne fs h]

theorem FS.erase_erase (fs : FS) (p : String) :
    FS.erase (FS.erase fs p) p = FS.erase fs p := by
  induction fs with
  | nil => rfl
  | cons hd tl ih =>
    obtain ⟨r, m⟩ := hd
    by_cases hr : r = p
    · simp [FS.erase, hr, ih]
    · simp [FS.erase, hr, ih]

theorem FS.setMode_insert (fs : FS) (p : String) (m : FileMeta) (mode : Nat) :
    FS.setMode (FS.insert fs p m) p mode = FS.insert fs p ⟨m.bytes, mode⟩ := by
  unfold FS.setMode
  rw [FS.lookup_insert_self]
  simp [FS.insert, FS.erase, FS.erase_erase]

theorem encodeSpaces_not_mem_space (cs : List Char) :
    ' ' ∉ encodeSpaces cs := by
  induction cs with
  | nil => simp [encodeSpaces]
  | cons c rest ih =>
    by_cases hc : c = ' '
    · simp [encodeSpaces, hc, ih]
    · simp [encodeSpaces, hc, ih, Ne.symm hc]

theorem encodeSpaces_of_not_mem (cs : List Char) (h : ' ' ∉ cs) :
    encodeSpaces cs = cs := by
  induction cs with
  | nil => rfl
  | cons c rest ih =>
    simp only [List.mem_cons, not_or] at h
    simp [encodeSpaces, Ne.symm h.1, ih h.2]

theorem downloadLoop_chunks (cs : List Bytes) (hcs : ∀ c ∈ cs, c ≠ [])
    (tail : List ReadEvent) (acc : Bytes) :
    downloadLoop (cs.map ReadEvent.chunk ++ tail) acc =
      downloadLoop tail (acc ++ cs.flatten) := by
  induction cs generalizing acc with
  | nil => simp
  | cons c rest ih =>
    have hc : c ≠ [] := hcs c (by simp)
    cases c with
    | nil => exact absurd rfl hc
    | cons b bs =>
      simp only [List.map_cons, List.cons_append, downloadLoop,
        List.flatten_cons]
      rw [← List.cons_append, ← List.append_assoc]
      exact ih (fun x hx => hcs x (by simp [hx])) (acc ++ (b :: bs))

theorem stripPfx_append (pre rest : String) :
    stripPfx (pre ++ rest) pre = some rest := by
  unfold stripPfx
  rw [String.data_append]
  rw [if_pos (List.isPrefixOf_iff_prefix.mpr (List.prefix_append _ _))]
  rw [List.drop_left]

/-! ## Claims -/

/-- C9: every URL passed to `request_async` has each space percent-encoded
before transmission — `"a b"` is sent as `"a%20b"` — the sent URI contains no
space, and a URL without spaces is sent unchanged. -/
theorem C9_request_encodes_spaces (url : String)
    (hs : List (String × String)) (t : Option Nat) :
    (request_async "a b" hs t).uri = "a%20b" ∧
    ' ' ∉ (request_async url hs t).uri.data ∧
    (' ' ∉ url.data → (request_async url hs t).uri = url) := by
  refine ⟨rfl, ?_, ?_⟩
  · exact encodeSpaces_not_mem_space url.data
  · intro h
    show (⟨encodeSpaces url.data⟩ : String) = url
    rw [encodeSpaces_of_not_mem url.data h]

theorem C9_witness :
    ' ' ∉ ("http://x/y" : String).data ∧
    (request_async "http://x/y" [] none).uri = "http://x/y" :=
  ⟨by decide, (C9_request_encodes_spaces "http://x/y" [] none).2.2 (by decide)⟩

/-- C3: asset selection uses exact, case-sensitive string equality on the
asset name: when no asset's name equals `bin_name` the result is the
"No new release binary available" error, and when some asset matches and the
match is unique, that asset is the one returned. -/
theorem C3_selectAsset_exact (release : Release) (bin_name : String) :
    ((∀ a ∈ release.assets, a.name ≠ bin_name) →
      selectAsset release bin_name =
        .error (.custom ("No new release binary available for " ++ bin_name))) ∧
    (∀ a ∈ release.assets, a.name = bin_name →
      (∀ b ∈ release.assets, b.name = bin_name → b = a) →
      selectAsset release bin_name = .ok a) := by
  constructor
  · intro h
    unfold selectAsset
    have hnone : release.assets.find? (fun a => a.name == bin_name) = none := by
      rw [List.find?_eq_none]
      intro a ha
      simpa using h a ha
    rw [hnone]
  · intro a ha hname huniq
    unfold selectAsset
    have hex : ∃ x, x ∈ release.assets ∧ (x.name == bin_name) = true :=
      ⟨a, ha, by simpa using hname⟩
    have hsome := List.find?_isSome.mpr hex
    obtain ⟨b, hb⟩ := Option.isSome_iff_exists.mp hsome
    have hpb := List.find?_some hb
    have hmem := List.mem_of_find?_eq_some hb
    have hba : b = a := huniq b hmem (by simpa using hpb)
    rw [hb, hba]

theorem C3_witness :
    selectAsset ⟨"v1", [⟨"App", "u1"⟩, ⟨"app", "u2"⟩]⟩ "app" =
      .ok ⟨"app", "u2"⟩ ∧
    selectAsset ⟨"v1", [⟨"App", "u1"⟩]⟩ "app" =
      .error (.custom ("No new release binary available for " ++ "app")) :=
  ⟨(C3_selectAsset_exact ⟨"v1", [⟨"App", "u1"⟩, ⟨"app", "u2"⟩]⟩ "app").2
      ⟨"app", "u2"⟩ (by decide) rfl (by decide),
   (C3_selectAsset_exact ⟨"v1", [⟨"App", "u1"⟩]⟩ "app").1 (by decide)⟩

/-- C5: `get_latest_release` returns `none` on every failure — client
construction, network, a body that is not JSON, or a JSON body of the wrong
shape — and its `Option` return type admits no error value; it returns
`some rel` exactly when the GET succeeded and the body deserialized. -/
theorem C5_get_latest_release_total (clientBuild : Option Unit)
    (resp : Except ClientError (Option Json)) (rel : Release) :
    get_latest_release none resp = none ∧
    (∀ e, get_latest_release clientBuild (.error e) = none) ∧
    get_latest_release clientBuild (.ok none) = none ∧
    (get_latest_release clientBuild resp = some rel ↔
      clientBuild = some () ∧
      ∃ j, resp = .ok (some j) ∧ decodeRelease j = some rel) := by
  refine ⟨rfl, ?_, ?_, ?_⟩
  · intro e
    cases clientBuild <;> rfl
  · cases clientBuild <;> rfl
  · cases clientBuild with
    | none =>
      simp [get_latest_release]
    | some u =>
      cases u
      cases resp with
      | error e => simp [get_latest_release]
      | ok bodyJson =>
        cases bodyJson with
        | none => simp [get_latest_release]
        | some j =>
          constructor
          · intro h
            exact ⟨rfl, j, rfl, h⟩
          · rintro ⟨-, j2, hj2, hdec⟩
            cases hj2
            exact hdec

theorem C5_witness :
    get_latest_release (some ())
      (.ok (some (Json.obj [("tag_name", Json.str "v1"), ("assets", Json.arr [])])))
      = some ⟨"v1", []⟩ :=
  (C5_get_latest_release_total (some ())
      (.ok (some (Json.obj [("tag_name", Json.str "v1"), ("assets", Json.arr [])])))
      ⟨"v1", []⟩).2.2.2.mpr
    ⟨rfl, Json.obj [("tag_name", Json.str "v1"), ("assets", Json.arr [])], rfl, rfl⟩

/-- C8: the `Content-Length` header is parsed as an unsigned integer
defaulting to `0` when absent or unparseable, and is compared against the
body's reported length; so an absent/unparseable header together with a body
whose length is reported as `0` or unknown passes the check. -/
theorem C8_content_length_default (h : Option String) (b : BodyModel)
    (fs : FS) (dest : String) :
    (parseU64 (h.getD "") = none → contentLengthValue h = 0) ∧
    contentLengthValue none = 0 ∧
    contentLengthValue (some "1024") = 1024 ∧
    (contentLengthValue h = 0 → b.reportedLen.getD 0 = 0 →
      (download_file (.ok ⟨h, b⟩) true none fs dest).1 = .ok ()) := by
  refine ⟨?_, by decide, by decide, ?_⟩
  · intro hp
    simp [contentLengthValue, hp]
  · intro hcl hbl
    simp [download_file, hcl, hbl]

theorem C8_witness :
    (download_file (.ok ⟨some "12ab", ⟨none, [1, 2]⟩⟩) true none [] "d").1
      = .ok () :=
  (C8_content_length_default (some "12ab") ⟨none, [1, 2]⟩ [] "d").2.2.2
    (by decide) (by decide)

/-- C10: when the current executable's file name does not start with
`"tmp_"`, `handle_self_update_temp` panics on the `unwrap` of
`strip_prefix` rather than taking the error path; the error branch is
reachable only for names carrying the prefix. -/
theorem C10_no_tmp_panics (parent_dir file_name : String)
    (renameOk : Bool) (fs : FS) :
    ("tmp_".data.isPrefixOf file_name.data = false →
      handle_self_update_temp parent_dir file_name renameOk fs = .panicked) ∧
    (∀ e, handle_self_update_temp parent_dir file_name renameOk fs = .errored e →
      "tmp_".data.isPrefixOf file_name.data = true) := by
  constructor
  · intro h
    simp [handle_self_update_temp, stripPfx, h]
  · intro e he
    by_cases hp : "tmp_".data.isPrefixOf file_name.data = true
    · exact hp
    · rw [Bool.not_eq_true] at hp
      simp [handle_self_update_temp, stripPfx, hp] at he

theorem C10_witness :
    handle_self_update_temp "/opt" "ajour" true [] = .panicked :=
  (C10_no_tmp_panics "/opt" "ajour" true []).1 (by decide)

/-- C2: with a staged file at `parent_dir/tmp_<app>`, the finalize step
renames it onto `parent_dir/<app>`: afterwards the destination holds the
staged bytes and the temp name no longer exists; when the rename fails the
error is surfaced and `main` exits with status 1. -/
theorem C2_finalize (parent_dir app : String) (meta : FileMeta) (fs : FS)
    (hstaged : FS.lookup fs (parent_dir ++ "/" ++ ("tmp_" ++ app)) = some meta) :
    handle_self_update_temp parent_dir ("tmp_" ++ app) true fs =
      .ok (finalizeResult parent_dir app meta fs) ∧
    FS.lookup (finalizeResult parent_dir app meta fs)
      (parent_dir ++ "/" ++ app) = some meta ∧
    FS.lookup (finalizeResult parent_dir app meta fs)
      (parent_dir ++ "/" ++ ("tmp_" ++ app)) = none ∧
    handle_self_update_temp parent_dir ("tmp_" ++ app) false fs = .errored .fs ∧
    mainSelfUpdateStep true parent_dir ("tmp_" ++ app) false fs = .exited 1 := by
  have hne : parent_dir ++ "/" ++ ("tmp_" ++ app) ≠ parent_dir ++ "/" ++ app := by
    intro hh
    have hlen := congrArg String.length hh
    simp only [String.length_append] at hlen
    have h4 : ("tmp_" : String).length = 4 := rfl
    rw [h4] at hlen
    omega
  have hstrip : stripPfx ("tmp_" ++ app) "tmp_" = some app :=
    stripPfx_append "tmp_" app
  have hrename : renameFile fs (parent_dir ++ "/" ++ ("tmp_" ++ app))
      (parent_dir ++ "/" ++ app) true
      = .ok (finalizeResult parent_dir app meta fs) := by
    simp [renameFile, hstaged, finalizeResult]
  refine ⟨?_, ?_, ?_, ?_, ?_⟩
  · simp [handle_self_update_temp, hstrip, hrename]
  · unfold finalizeResult
    exact FS.lookup_insert_self _ _ _
  · unfold finalizeResult
    rw [FS.lookup_insert_of_ne _ _ hne]
    exact FS.lookup_erase_self fs _
  · simp [handle_self_update_temp, hstrip, renameFile]
  · simp [mainSelfUpdateStep, handle_self_update_temp, hstrip, renameFile]

theorem C2_witness :
    handle_self_update_temp "/opt" ("tmp_" ++ "ajour") true
      [("/opt" ++ "/" ++ ("tmp_" ++ "ajour"), ⟨[1], 493⟩)] =
      .ok (finalizeResult "/opt" "ajour" ⟨[1], 493⟩
        [("/opt" ++ "/" ++ ("tmp_" ++ "ajour"), ⟨[1], 493⟩)]) ∧
    FS.lookup (finalizeResult "/opt" "ajour" ⟨[1], 493⟩
      [("/opt" ++ "/" ++ ("tmp_" ++ "ajour"), ⟨[1], 493⟩)])
      ("/opt" ++ "/" ++ "ajour") = some ⟨[1], 493⟩ ∧
    FS.lookup (finalizeResult "/opt" "ajour" ⟨[1], 493⟩
      [("/opt" ++ "/" ++ ("tmp_" ++ "ajour"), ⟨[1], 493⟩)])
      ("/opt" ++ "/" ++ ("tmp_" ++ "ajour")) = none ∧
    handle_self_update_temp "/opt" ("tmp_" ++ "ajour") false
      [("/opt" ++ "/" ++ ("tmp_" ++ "ajour"), ⟨[1], 493⟩)] = .errored .fs ∧
    mainSelfUpdateStep true "/opt" ("tmp_" ++ "ajour") false
      [("/opt" ++ "/" ++ ("tmp_" ++ "ajour"), ⟨[1], 493⟩)] = .exited 1 :=
  C2_finalize "/opt" "ajour" ⟨[1], 493⟩
    [("/opt" ++ "/" ++ ("tmp_" ++ "ajour"), ⟨[1], 493⟩)] (by decide)

/-- C4: the chunked read loop of `download_addon` stops on a zero-byte read
or on an I/O read error; on an error the loop exits early and the function
still returns `Ok`, leaving the destination truncated to the bytes read
before the error (later stream events are never consumed). -/
theorem C4_read_error_truncates (addon : Addon) (u : String)
    (hurl : addon.remoteUrl = some u) (cs : List Bytes)
    (hcs : ∀ c ∈ cs, c ≠ []) (rest : List ReadEvent) (fs : FS) (dir : String) :
    download_addon addon
        (.ok (cs.map ReadEvent.chunk ++ ReadEvent.ioError :: rest)) fs dir
      = (.ok (), FS.insert fs (dir ++ "/" ++ addon.id)
          ⟨cs.flatten, defaultFileMode⟩) ∧
    download_addon addon
        (.ok (cs.map ReadEvent.chunk ++ ReadEvent.chunk [] :: rest)) fs dir
      = (.ok (), FS.insert fs (dir ++ "/" ++ addon.id)
          ⟨cs.flatten, defaultFileMode⟩) := by
  refine ⟨?_, ?_⟩ <;>
  · simp only [download_addon, hurl]
    rw [downloadLoop_chunks cs hcs]
    simp [downloadLoop]

theorem C4_witness :
    download_addon ⟨"addon1", some "http://u"⟩
      (.ok (([[1, 2]] : List Bytes).map ReadEvent.chunk ++
        ReadEvent.ioError :: [ReadEvent.chunk [3]])) [] "/dl"
      = (.ok (), FS.insert [] ("/dl" ++ "/" ++ "addon1")
          ⟨([[1, 2]] : List Bytes).flatten, defaultFileMode⟩) :=
  (C4_read_error_truncates ⟨"addon1", some "http://u"⟩ "http://u" rfl
    [[1, 2]] (by decide) [ReadEvent.chunk [3]] [] "/dl").1

/-- C7: on success `download_update_to_temp_file` saves the selected asset at
`exe_dir/tmp_<bin_name>` and returns that path; on non-Windows the staged
file's mode is set to 0o755, on Windows it keeps the create-time mode. -/
theorem C7_temp_file_staging (bin_name : String) (release : Release)
    (asset : ReleaseAsset) (exe_dir : String)
    (responses : String → Except ClientError HttpResponse) (r : HttpResponse)
    (isWindows : Bool) (fs : FS)
    (hsel : selectAsset release bin_name = .ok asset)
    (hresp : responses asset.download_url = .ok r)
    (hlen : r.body.reportedLen.getD 0 = contentLengthValue r.contentLength) :
    download_update_to_temp_file bin_name release exe_dir responses true none
        isWindows fs
      = (.ok (exe_dir ++ "/tmp_" ++ bin_name),
         FS.insert fs (exe_dir ++ "/tmp_" ++ bin_name)
           ⟨r.body.bytes, if isWindows then defaultFileMode else 0o755⟩) := by
  have hdl : download_file (responses asset.download_url) true none fs
      (exe_dir ++ "/tmp_" ++ bin_name)
      = (.ok (), FS.insert fs (exe_dir ++ "/tmp_" ++ bin_name)
          ⟨r.body.bytes, defaultFileMode⟩) := by
    rw [hresp]
    simp [download_file, hlen]
  cases isWindows with
  | false =>
    simp [download_update_to_temp_file, hsel, hdl, FS.setMode_insert]
  | true =>
    simp [download_update_to_temp_file, hsel, hdl]

theorem C7_witness :
    download_update_to_temp_file "ajour" ⟨"v1", [⟨"ajour", "http://u"⟩]⟩
      "/opt" demoResponses true none false []
      = (.ok ("/opt" ++ "/tmp_" ++ "ajour"),
         FS.insert [] ("/opt" ++ "/tmp_" ++ "ajour")
           ⟨[7, 8], if false then defaultFileMode else 0o755⟩) :=
  C7_temp_file_staging "ajour" ⟨"v1", [⟨"ajour", "http://u"⟩]⟩
    ⟨"ajour", "http://u"⟩ "/opt" demoResponses ⟨some "2", ⟨some 2, [7, 8]⟩⟩
    false [] rfl rfl (by decide)

/-- C1 fails as stated: a response with no Content-Length header (parsed
value 0) and an unknown reported body length (also 0) passes the check, the
download reports success, yet the destination file holds the 3 streamed
bytes — its size differs from the header value 0. -/
theorem C1_counterexample :
    (download_file (.ok ⟨none, ⟨none, [1, 2, 3]⟩⟩) true none [] "dest").1
      = .ok () ∧
    Option.map (fun m => m.bytes.length)
      (FS.lookup
        (download_file (.ok ⟨none, ⟨none, [1, 2, 3]⟩⟩) true none [] "dest").2
        "dest")
      = some 3 ∧
    contentLengthValue none = 0 :=
  ⟨rfl, rfl, rfl⟩

/-- C1 (amended): on every successful whole-body download the check passed —
the body's reported length (default 0 when unknown) equals the parsed
Content-Length value (default 0 when absent/unparseable) — and the
destination holds exactly the streamed body bytes, whose count the check
does not constrain; whenever the compared lengths differ the call fails with
the integrity error and does not report success. -/
theorem C1_amended_length_check (r : HttpResponse) (createOk : Bool)
    (copyFail : Option Nat) (fs : FS) (dest : String) :
    ((download_file (.ok r) createOk copyFail fs dest).1 = .ok () →
      r.body.reportedLen.getD 0 = contentLengthValue r.contentLength ∧
      FS.lookup (download_file (.ok r) createOk copyFail fs dest).2 dest =
        some ⟨r.body.bytes, defaultFileMode⟩) ∧
    (r.body.reportedLen.getD 0 ≠ contentLengthValue r.contentLength →
      download_file (.ok r) createOk copyFail fs dest =
        (.error (.custom "Download failed, body len doesn't match content len"),
         fs)) := by
  constructor
  · intro hok
    by_cases hm : r.body.reportedLen.getD 0 ≠ contentLengthValue r.contentLength
    · simp [download_file, hm] at hok
    · push_neg at hm
      refine ⟨hm, ?_⟩
      cases createOk with
      | false => simp [download_file, hm] at hok
      | true =>
        cases copyFail with
        | none => simp [download_file, hm, FS.lookup_insert_self]
        | some k => simp [download_file, hm] at hok
  · intro hm
    simp [download_file, hm]

theorem C1_witness :
    (some 2 : Option Nat).getD 0 = contentLengthValue (some "2") ∧
    FS.lookup
      (download_file (.ok ⟨some "2", ⟨some 2, [9, 9]⟩⟩) true none [] "d").2
      "d" = some ⟨[9, 9], defaultFileMode⟩ :=
  (C1_amended_length_check ⟨some "2", ⟨some 2, [9, 9]⟩⟩ true none [] "d").1
    rfl

/-- C6 fails as stated: when the length check fails the integrity error is
returned before the destination file is created — at the spec's own scenario
(Content-Length 1024, body reporting 900) the filesystem after the call is
identical to the one before, so no partial content was written by the
stream copy of this call. -/
theorem C6_counterexample :
    download_file (.ok ⟨some "1024", ⟨some 900, [1, 2, 3]⟩⟩) true none
        [("dest", ⟨[9, 9], 420⟩)] "dest"
      = (.error (.custom "Download failed, body len doesn't match content len"),
         [("dest", ⟨[9, 9], 420⟩)]) :=
  rfl

/-- C6 (amended): when the whole-body length check fails, `download_file`
fails with the integrity error and leaves the filesystem unchanged — the
check precedes file creation, so this call writes no partial content, and it
performs no cleanup of any pre-existing destination file either. -/
theorem C6_amended_no_partial_write (r : HttpResponse) (createOk : Bool)
    (copyFail : Option Nat) (fs : FS) (dest : String)
    (hmis : r.body.reportedLen.getD 0 ≠ contentLengthValue r.contentLength) :
    download_file (.ok r) createOk copyFail fs dest =
      (.error (.custom "Download failed, body len doesn't match content len"),
       fs) ∧
    FS.lookup (download_file (.ok r) createOk copyFail fs dest).2 dest =
      FS.lookup fs dest := by
  have h1 : download_file (.ok r) createOk copyFail fs dest =
      (.error (.custom "Download failed, body len doesn't match content len"),
       fs) := by
    simp [download_file, hmis]
  exact ⟨h1, by rw [h1]⟩

theorem C6_witness :
    download_file (.ok ⟨some "5", ⟨some 3, []⟩⟩) false (some 0) [] "x" =
      (.error (.custom "Download failed, body len doesn't match content len"),
       []) ∧
    FS.lookup
      (download_file (.ok ⟨some "5", ⟨some 3, []⟩⟩) false (some 0) [] "x").2
      "x" = FS.lookup [] "x" :=
  C6_amended_no_partial_write ⟨some "5", ⟨some 3, []⟩⟩ false (some 0) [] "x"
    (by decide)
